import Mathlib

/-!
Verification of the TREZOR device wrapper (libagent/device/trezor.py).

The Python module is embedded shallowly: byte strings become `List Nat`,
fallible device calls become `Except` values, and each Python exception
class that the module can raise or catch becomes a constructor of
`TrezorError`.  Exceptions raised by the wrapper itself (AssertionError,
ValueError) are modelled from the source; the exception classes imported
from libagent/device/interface.py (DeviceError, NotFoundError) and from
the trezorlib bindings (CallException) are modelled as opaque carriers of
their message strings, since only their identity and message matter here.
-/

namespace Trezor

/-- A byte string, one `Nat` (0..255) per byte. -/
abbrev Bytes := List Nat

/-- The errors the module can signal.
`deviceError` is interface.DeviceError, `notFoundError` is
interface.NotFoundError (the spec calls these DeviceError and
NoDeviceFoundError), `assertionError` is the Python AssertionError
produced by a failed `assert` (the fatal internal-consistency error),
`valueError` is the Python ValueError raised at the firmware version gate
(the spec calls it IncompatibleFirmwareError), `protocolError` is the
rejection of an unknown identity field name, and `otherError` stands for
any other exception propagating out of a device call. -/
inductive TrezorError where
  | deviceError (msg : String)
  | notFoundError (msg : String)
  | assertionError
  | valueError (msg : String)
  | protocolError (fieldName : String)
  | otherError (msg : String)
deriving DecidableEq, Repr

/-- The outcome of one device call: either a normal response of type `α`
or a CallException (DeviceFault) carrying the fault message. -/
abbrev DeviceResp (α : Type) := Except String α

/-- Embeds `Trezor.sign` (trezor.py lines 110-128).  `devName` is
`str(self)`; `resp` is the outcome of `self.conn.sign_identity(...)`,
whose payload is `result.signature`.  The two `assert` statements are the
length-65 and leading-0x00 checks; `result.signature[1:]` is `drop 1`;
the `except CallException` clause wraps the fault as DeviceError with
message `str(self) + " error: " + str(e)`. -/
def sign (devName : String) (resp : DeviceResp Bytes) : Except TrezorError Bytes :=
  match resp with
  | .error e => .error (.deviceError (devName ++ " error: " ++ e))
  | .ok signature =>
    if signature.length = 65 then
      if signature.take 1 = [0x00] then
        .ok (signature.drop 1)
      else
        .error .assertionError
    else
      .error .assertionError

/-- Embeds `Trezor.ecdh` (trezor.py lines 130-147).  `resp` is the
outcome of `self.conn.get_ecdh_session_key(...)`, whose payload is
`result.session_key`.  The asserts check that the length is 65 or 33 and
`session_key[:1] == b"\x04"` (the latter applies to both lengths in the
source); on success the key is returned unmodified. -/
def ecdh (devName : String) (resp : DeviceResp Bytes) : Except TrezorError Bytes :=
  match resp with
  | .error e => .error (.deviceError (devName ++ " error: " ++ e))
  | .ok session_key =>
    if session_key.length = 65 ∨ session_key.length = 33 then
      if session_key.take 1 = [0x04] then
        .ok session_key
      else
        .error .assertionError
    else
      .error .assertionError

/-- The `node` field of a GetPublicNode response (an HDNodeType message):
only its `public_key` bytes are used by the wrapper. -/
structure HDNodeType where
  public_key : Bytes
deriving DecidableEq, Repr

/-- A successful GetPublicNode response as used by `Trezor.pubkey`. -/
structure PublicNodeResponse where
  node : HDNodeType
deriving DecidableEq, Repr

/-- Embeds `Trezor.pubkey` (trezor.py lines 93-102): returns
`result.node.public_key` with no further validation. -/
def pubkey (result : PublicNodeResponse) : Bytes :=
  result.node.public_key

/-- The Features message decoded at handshake: the version triple used by
the version gate (trezor.py lines 70-72).  The other fields (device_id,
label, vendor, revision) are only logged and are omitted. -/
structure Features where
  major_version : Nat
  minor_version : Nat
  patch_version : Nat
deriving DecidableEq, Repr

/-- The version string built by connect (trezor.py lines 70-72): the
major, minor and patch numbers joined with dots. -/
def versionString (f : Features) : String :=
  toString f.major_version ++ "." ++ toString f.minor_version ++ "."
    ++ toString f.patch_version

/-- Modelled from the spec: the version-constraint primitive
`semver.match(current_version, required_version)` lives in the external
semver library, not under src/.  The spec states that the version
satisfies the constraint iff its numeric triple is lexicographically at
least (1, 4, 0). -/
def semverMatchGe140 (f : Features) : Bool :=
  decide (1 < f.major_version ∨ (1 = f.major_version ∧
    (4 < f.minor_version ∨ (4 = f.minor_version ∧ 0 ≤ f.patch_version))))

/-- `required_version` class attribute (trezor.py line 27). -/
def required_version : String := ">=1.4.0"

/-- What one enumerated endpoint does at each step of connect.
`openResult` covers `Transport(d)` / `Client(transport)` / the callback
registrations: an error there means no channel was opened.
`featuresResult` is the handshake (`connection.features`), performed on
the open channel.  `pingResult` is `connection.ping(msg="",
pin_protection=True)`, the unlock step. -/
structure EndpointBehavior where
  openResult : Except String Unit
  featuresResult : Except String Features
  pingResult : Except String Unit
deriving Repr

/-- The outcome of connect.  On failure, `channelClosed` records the fate
of the channel opened for the attempted endpoint: `none` when no channel
was ever opened, `some b` when a channel was opened and `b` tells whether
`connection.close()` ran before the error propagated. -/
inductive ConnectResult where
  | success (features : Features)
  | failure (err : TrezorError) (channelClosed : Option Bool)
deriving DecidableEq, Repr

/-- The body of the `for d in ...enumerate()` loop of connect
(trezor.py lines 60-86) for a single endpoint.  Every control path of the
Python body either returns the connection or raises, so the body maps one
endpoint to a `ConnectResult`:
 - `Transport(d)` / `Client(transport)` failure propagates with no
   channel open;
 - `connection.features` failure propagates, the channel stays open;
 - version-gate failure raises ValueError with the upgrade message that
   names the device, the required version and the current version; the
   channel stays open;
 - ping failure runs `connection.close()` and re-raises;
 - otherwise the connection is returned. -/
def connectBody (devName : String) (ep : EndpointBehavior) : ConnectResult :=
  match ep.openResult with
  | .error e => .failure (.otherError e) none
  | .ok _ =>
    match ep.featuresResult with
    | .error e => .failure (.otherError e) (some false)
    | .ok f =>
      if semverMatchGe140 f then
        match ep.pingResult with
        | .error e => .failure (.otherError e) (some true)
        | .ok _ => .success f
      else
        .failure
          (.valueError ("Please upgrade your " ++ devName ++ " firmware to "
            ++ required_version ++ " version (current: " ++ versionString f ++ ")"))
          (some false)

/-- Embeds `Trezor.connect` (trezor.py lines 30-87): iterate the
enumerated endpoints; since every path of the loop body returns or
raises, only the head of the enumeration is ever attempted; an empty
enumeration reaches the final raise of interface.NotFoundError whose
message is the device name followed by " not connected". -/
def connect (devName : String) (endpoints : List EndpointBehavior) : ConnectResult :=
  match endpoints with
  | [] => .failure (.notFoundError (devName ++ " not connected")) none
  | ep :: _ => connectBody devName ep

/-- The IdentityType message constructed by `_identity_proto`, as a list
of (field name, value) assignments in order. -/
structure IdentityTypeMsg where
  fields : List (String × String)
deriving DecidableEq, Repr

/-- Modelled from the spec: the legal field names of the outgoing
IdentityType message.  The message class `trezor_defs.IdentityType` is
not under src/ (trezor_defs.py only re-exports the trezorlib protobuf
class); the spec lists the Identity fields as (proto, user, host, port,
path), plus the derivation index carried by the protobuf schema. -/
def identityTypeFieldNames : List String :=
  ["proto", "user", "host", "port", "path", "index"]

/-- Modelled from the spec: `setattr(result, name, value)` on the
IdentityType message.  Per the spec, all present fields must be settable
on the outgoing message type and unknown field names are rejected with a
ProtocolError rather than silently ignored. -/
def setIdentityField (m : IdentityTypeMsg) (name value : String) :
    Except TrezorError IdentityTypeMsg :=
  if name ∈ identityTypeFieldNames then
    .ok ⟨m.fields ++ [(name, value)]⟩
  else
    .error (.protocolError name)

/-- Embeds `Trezor._identity_proto` (trezor.py lines 104-108): start from
an empty IdentityType message and run `setattr(result, name, value)` for
each (name, value) of `identity.items()` in order. -/
def identity_proto (items : List (String × String)) :
    Except TrezorError IdentityTypeMsg :=
  items.foldlM (fun m nv => setIdentityField m nv.1 nv.2) ⟨[]⟩

/-- The PassphraseAck message: carries only the passphrase string. -/
structure PassphraseAck where
  passphrase : String
deriving DecidableEq, Repr

/-- `passphrase` class attribute (trezor.py line 28):
`os.environ.get("TREZOR_PASSPHRASE", "")`, taking the environment
variable as an optional string. -/
def passphraseOf (envTREZOR_PASSPHRASE : Option String) : String :=
  envTREZOR_PASSPHRASE.getD ""

/-- An opaque request context as delivered to the passphrase callback:
whatever the device sent with its PassphraseRequest. -/
structure RequestContext where
  data : List Nat
deriving DecidableEq, Repr

/-- Embeds `passphrase_handler` (trezor.py lines 32-35), registered by
connect as `connection.callback_PassphraseRequest`: it ignores its
argument (named `_` in the source) and returns
`PassphraseAck(passphrase=self.passphrase)`. -/
def passphrase_handler (envTREZOR_PASSPHRASE : Option String)
    (_ctx : RequestContext) : PassphraseAck :=
  ⟨passphraseOf envTREZOR_PASSPHRASE⟩

end Trezor

/-- Claim C1: for every device response to sign whose signature is
exactly 65 bytes and begins with byte 0x00, sign returns the last 64
bytes of that signature (the 0x00 byte stripped, the rest unmodified),
and the returned value has length 64. -/
theorem sign_strips_leading_zero_byte (devName : String) (sig : Trezor.Bytes)
    (h1 : sig.length = 65) (h2 : sig.take 1 = [0x00]) :
    Trezor.sign devName (.ok sig) = .ok (sig.drop 1) ∧
      (sig.drop 1).length = 64 ∧ sig.drop 1 = sig.drop (sig.length - 64) := by
  refine ⟨?_, ?_, ?_⟩
  · simp [Trezor.sign, h1, h2]
  · simp [h1]
  · rw [h1]

/-- Witness for C1: a concrete 65-byte signature starting with 0x00. -/
theorem sign_strips_leading_zero_byte_witness :
    (((0 : Nat) :: List.replicate 64 7).length = 65 ∧
      ((0 : Nat) :: List.replicate 64 7).take 1 = [0x00]) ∧
    (Trezor.sign "Trezor" (.ok ((0 : Nat) :: List.replicate 64 7)) =
        .ok (((0 : Nat) :: List.replicate 64 7).drop 1) ∧
      (((0 : Nat) :: List.replicate 64 7).drop 1).length = 64 ∧
      ((0 : Nat) :: List.replicate 64 7).drop 1 =
        ((0 : Nat) :: List.replicate 64 7).drop
          (((0 : Nat) :: List.replicate 64 7).length - 64)) :=
  ⟨⟨by decide, by decide⟩,
    sign_strips_leading_zero_byte "Trezor" ((0 : Nat) :: List.replicate 64 7)
      (by decide) (by decide)⟩

/-- Claim C3: for every device response to sign whose signature has
length different from 65, or has length 65 but a first byte different
from 0x00, sign raises the fatal internal-consistency error
(AssertionError), does not raise DeviceError and does not return. -/
theorem sign_bad_shape_is_fatal (devName : String) (sig : Trezor.Bytes)
    (h : sig.length ≠ 65 ∨ (sig.length = 65 ∧ sig.take 1 ≠ [0x00])) :
    Trezor.sign devName (.ok sig) = .error .assertionError ∧
      (∀ msg, Trezor.sign devName (.ok sig) ≠ .error (.deviceError msg)) ∧
      (∀ v, Trezor.sign devName (.ok sig) ≠ .ok v) := by
  have hmain : Trezor.sign devName (.ok sig) = .error .assertionError := by
    rcases h with h | ⟨h1, h2⟩
    · simp [Trezor.sign, h]
    · simp [Trezor.sign, h1, h2]
  refine ⟨hmain, ?_, ?_⟩
  · intro msg hc
    rw [hmain] at hc
    exact absurd (Except.error.inj hc) (by simp)
  · intro v hc
    rw [hmain] at hc
    exact Except.noConfusion hc

/-- Witness for C3: a concrete 64-byte signature (wrong length). -/
theorem sign_bad_shape_is_fatal_witness :
    ((List.replicate 64 (7 : Nat)).length ≠ 65 ∨
      ((List.replicate 64 (7 : Nat)).length = 65 ∧
        (List.replicate 64 (7 : Nat)).take 1 ≠ [0x00])) ∧
    (Trezor.sign "Trezor" (.ok (List.replicate 64 (7 : Nat))) =
        .error .assertionError ∧
      (∀ msg, Trezor.sign "Trezor" (.ok (List.replicate 64 (7 : Nat))) ≠
        .error (.deviceError msg)) ∧
      (∀ v, Trezor.sign "Trezor" (.ok (List.replicate 64 (7 : Nat))) ≠ .ok v)) :=
  ⟨Or.inl (by decide),
    sign_bad_shape_is_fatal "Trezor" (List.replicate 64 (7 : Nat))
      (Or.inl (by decide))⟩

/-- Claim C4: whenever the device reports a fault (CallException) during
sign or ecdh, the operation raises DeviceError whose message carries the
device identity and the fault message; the raw fault is never propagated
to the caller. -/
theorem device_fault_wrapped_as_device_error (devName faultMsg : String) :
    Trezor.sign devName (.error faultMsg) =
      .error (.deviceError (devName ++ " error: " ++ faultMsg)) ∧
    Trezor.ecdh devName (.error faultMsg) =
      .error (.deviceError (devName ++ " error: " ++ faultMsg)) ∧
    (∃ tail, devName ++ " error: " ++ faultMsg = devName ++ tail) ∧
    (∃ front, devName ++ " error: " ++ faultMsg = front ++ faultMsg) :=
  ⟨rfl, rfl, ⟨" error: " ++ faultMsg, by rw [String.append_assoc]⟩,
    ⟨devName ++ " error: ", by rw [String.append_assoc]⟩⟩

/-- Claim C10: the passphrase callback registered by connect is a
constant function of its request context: any two invocations, with any
request contexts, return equal PassphraseAck values, each carrying the
fixed passphrase captured from the TREZOR_PASSPHRASE environment
variable (the empty string when unset). -/
theorem passphrase_handler_is_constant (env : Option String)
    (c1 c2 : Trezor.RequestContext) :
    Trezor.passphrase_handler env c1 = Trezor.passphrase_handler env c2 ∧
    (Trezor.passphrase_handler env c1).passphrase = Trezor.passphraseOf env ∧
    Trezor.passphraseOf none = "" ∧
    (∀ s, Trezor.passphraseOf (some s) = s) :=
  ⟨rfl, rfl, rfl, fun _ => rfl⟩

/-- Claim C2 counterexample: a 33-byte session key whose first byte is
not 0x04 is NOT returned unmodified: the unconditional assert on the
first byte makes ecdh raise the fatal consistency error instead. -/
theorem ecdh_rejects_33_byte_key_without_04 :
    ((1 : Nat) :: List.replicate 32 0).length = 33 ∧
    Trezor.ecdh "Trezor" (.ok ((1 : Nat) :: List.replicate 32 0)) =
      .error .assertionError ∧
    Trezor.ecdh "Trezor" (.ok ((1 : Nat) :: List.replicate 32 0)) ≠
      .ok ((1 : Nat) :: List.replicate 32 0) := by
  refine ⟨by decide, rfl, fun hc => ?_⟩
  have h2 : Trezor.ecdh "Trezor" (.ok ((1 : Nat) :: List.replicate 32 0)) =
      .error .assertionError := rfl
  rw [h2] at hc
  exact Except.noConfusion hc

/-- Claim C2 amended: a session key of length 65 or 33 whose first byte
is 0x04 is returned unmodified; a session key of length 65 or 33 whose
first byte is not 0x04 causes the fatal consistency error (not a normal
return and not DeviceError) — the first-byte check applies to BOTH
lengths, not only to 65. -/
theorem ecdh_key_validation (devName : String) (key : Trezor.Bytes)
    (h : key.length = 65 ∨ key.length = 33) :
    (key.take 1 = [0x04] → Trezor.ecdh devName (.ok key) = .ok key) ∧
    (key.take 1 ≠ [0x04] →
      Trezor.ecdh devName (.ok key) = .error .assertionError ∧
      ∀ msg, Trezor.ecdh devName (.ok key) ≠ .error (.deviceError msg)) := by
  constructor
  · intro h4
    rcases h with h | h <;> simp [Trezor.ecdh, h, h4]
  · intro h4
    have hmain : Trezor.ecdh devName (.ok key) = .error .assertionError := by
      rcases h with h | h <;> simp [Trezor.ecdh, h, h4]
    refine ⟨hmain, fun msg hc => ?_⟩
    rw [hmain] at hc
    exact absurd (Except.error.inj hc) (by simp)

/-- Witness for the amended C2: a concrete 65-byte key starting with
0x04 is returned unmodified, and a concrete 65-byte key starting with
0x01 hits the fatal consistency error. -/
theorem ecdh_key_validation_witness :
    Trezor.ecdh "Trezor" (.ok ((4 : Nat) :: List.replicate 64 9)) =
      .ok ((4 : Nat) :: List.replicate 64 9) ∧
    Trezor.ecdh "Trezor" (.ok ((1 : Nat) :: List.replicate 64 9)) =
      .error .assertionError :=
  ⟨(ecdh_key_validation "Trezor" ((4 : Nat) :: List.replicate 64 9)
      (Or.inl (by decide))).1 (by decide),
    ((ecdh_key_validation "Trezor" ((1 : Nat) :: List.replicate 64 9)
      (Or.inl (by decide))).2 (by decide)).1⟩

/-- Claim C5: when the device firmware version does not satisfy the
required constraint, connect fails with the ValueError that plays the
role of IncompatibleFirmwareError in the spec taxonomy; its message
names both the required constraint and the current version, and the
result does not depend on the remaining endpoints (no retry). -/
theorem connect_version_gate_fatal (devName : String)
    (ep : Trezor.EndpointBehavior) (rest : List Trezor.EndpointBehavior)
    (f : Trezor.Features)
    (hopen : ep.openResult = .ok ())
    (hfeat : ep.featuresResult = .ok f)
    (hver : Trezor.semverMatchGe140 f = false) :
    Trezor.connect devName (ep :: rest) =
      .failure
        (.valueError ("Please upgrade your " ++ devName ++ " firmware to "
          ++ Trezor.required_version ++ " version (current: "
          ++ Trezor.versionString f ++ ")"))
        (some false) ∧
    (∃ pre mid post,
      "Please upgrade your " ++ devName ++ " firmware to "
          ++ Trezor.required_version ++ " version (current: "
          ++ Trezor.versionString f ++ ")"
        = pre ++ Trezor.required_version ++ mid
            ++ Trezor.versionString f ++ post) ∧
    Trezor.connect devName (ep :: rest) = Trezor.connect devName [ep] := by
  refine ⟨?_, ⟨"Please upgrade your " ++ devName ++ " firmware to ",
    " version (current: ", ")", ?_⟩, rfl⟩
  · simp [Trezor.connect, Trezor.connectBody, hopen, hfeat, hver]
  · simp [String.append_assoc]

/-- Witness for C5: a concrete endpoint reporting firmware 1.3.0. -/
theorem connect_version_gate_fatal_witness :
    Trezor.semverMatchGe140 ⟨1, 3, 0⟩ = false ∧
    (Trezor.connect "Trezor" [⟨.ok (), .ok ⟨1, 3, 0⟩, .ok ()⟩] =
      .failure
        (.valueError ("Please upgrade your " ++ "Trezor" ++ " firmware to "
          ++ Trezor.required_version ++ " version (current: "
          ++ Trezor.versionString ⟨1, 3, 0⟩ ++ ")"))
        (some false) ∧
    (∃ pre mid post,
      "Please upgrade your " ++ "Trezor" ++ " firmware to "
          ++ Trezor.required_version ++ " version (current: "
          ++ Trezor.versionString ⟨1, 3, 0⟩ ++ ")"
        = pre ++ Trezor.required_version ++ mid
            ++ Trezor.versionString ⟨1, 3, 0⟩ ++ post) ∧
    Trezor.connect "Trezor" [⟨.ok (), .ok ⟨1, 3, 0⟩, .ok ()⟩] =
      Trezor.connect "Trezor" [⟨.ok (), .ok ⟨1, 3, 0⟩, .ok ()⟩]) :=
  ⟨by decide,
    connect_version_gate_fatal "Trezor" ⟨.ok (), .ok ⟨1, 3, 0⟩, .ok ()⟩ []
      ⟨1, 3, 0⟩ rfl rfl (by decide)⟩

/-- Claim C6 counterexample: a version-gate failure happens after the
Channel is opened, yet connect propagates it with the channel-closed
flag still false — the Channel is NOT closed before the error
propagates. -/
theorem connect_version_failure_leaves_channel_open :
    Trezor.connect "Trezor" [⟨.ok (), .ok ⟨1, 3, 0⟩, .ok ()⟩] =
      .failure
        (.valueError
          "Please upgrade your Trezor firmware to >=1.4.0 version (current: 1.3.0)")
        (some false) ∧
    (some false : Option Bool) ≠ some true := by
  exact ⟨rfl, by decide⟩

/-- Claim C6 amended: only a failure of the unlock ping closes the
Channel before the error propagates; a handshake (features) failure and
a version-gate failure propagate with the Channel left open. -/
theorem connect_channel_close_policy (devName : String)
    (ep : Trezor.EndpointBehavior) (rest : List Trezor.EndpointBehavior)
    (f : Trezor.Features) (e : String) :
    (ep.openResult = .ok () → ep.featuresResult = .ok f →
      Trezor.semverMatchGe140 f = true → ep.pingResult = .error e →
      Trezor.connect devName (ep :: rest) =
        .failure (.otherError e) (some true)) ∧
    (ep.openResult = .ok () → ep.featuresResult = .error e →
      Trezor.connect devName (ep :: rest) =
        .failure (.otherError e) (some false)) ∧
    (ep.openResult = .ok () → ep.featuresResult = .ok f →
      Trezor.semverMatchGe140 f = false →
      ∃ msg, Trezor.connect devName (ep :: rest) =
        .failure (.valueError msg) (some false)) := by
  refine ⟨fun h1 h2 h3 h4 => ?_, fun h1 h2 => ?_, fun h1 h2 h3 => ?_⟩
  · simp [Trezor.connect, Trezor.connectBody, h1, h2, h3, h4]
  · simp [Trezor.connect, Trezor.connectBody, h1, h2]
  · exact ⟨"Please upgrade your " ++ devName ++ " firmware to "
      ++ Trezor.required_version ++ " version (current: "
      ++ Trezor.versionString f ++ ")",
      by simp [Trezor.connect, Trezor.connectBody, h1, h2, h3]⟩

/-- Witness for the amended C6: a concrete endpoint whose unlock ping
fails; connect closes the channel and propagates. -/
theorem connect_channel_close_policy_witness :
    Trezor.connect "Trezor" [⟨.ok (), .ok ⟨1, 4, 0⟩, .error "ping failed"⟩] =
      .failure (.otherError "ping failed") (some true) :=
  (connect_channel_close_policy "Trezor"
      ⟨.ok (), .ok ⟨1, 4, 0⟩, .error "ping failed"⟩ [] ⟨1, 4, 0⟩
      "ping failed").1 rfl rfl (by decide) rfl

/-- Claim C8: connect attempts only the first enumerated endpoint: its
outcome, success or failure, is exactly the outcome of the loop body on
that endpoint and is independent of all later endpoints; an empty
enumeration raises NotFoundError (the NoDeviceFoundError of the spec)
with the device name in the message. -/
theorem connect_uses_first_endpoint_only (devName : String) :
    Trezor.connect devName [] =
      .failure (.notFoundError (devName ++ " not connected")) none ∧
    (∀ ep rest, Trezor.connect devName (ep :: rest) =
      Trezor.connect devName [ep]) ∧
    (∀ ep rest, Trezor.connect devName (ep :: rest) =
      Trezor.connectBody devName ep) :=
  ⟨rfl, fun _ _ => rfl, fun _ _ => rfl⟩

/-- Claim C9 counterexample: pubkey performs no length validation: a
response whose node carries a 3-byte public key is returned as those 3
bytes, whose length is neither 33 nor 65. -/
theorem pubkey_no_length_validation :
    Trezor.pubkey ⟨⟨[1, 2, 3]⟩⟩ = [1, 2, 3] ∧
    ¬(Trezor.pubkey ⟨⟨[1, 2, 3]⟩⟩).length = 33 ∧
    ¬(Trezor.pubkey ⟨⟨[1, 2, 3]⟩⟩).length = 65 := by
  decide

/-- Claim C9 amended: pubkey returns exactly the public-key bytes of the
node field of the response, unmodified; no length validation is
performed, so the result has length 33 or 65 exactly when the response
carries 33 or 65 bytes. -/
theorem pubkey_returns_node_public_key (r : Trezor.PublicNodeResponse) :
    Trezor.pubkey r = r.node.public_key ∧
    (((Trezor.pubkey r).length = 33 ∨ (Trezor.pubkey r).length = 65) ↔
      (r.node.public_key.length = 33 ∨ r.node.public_key.length = 65)) :=
  ⟨rfl, Iff.rfl⟩

/-- Helper for C7: folding the field assignments over any starting
message fails with a ProtocolError as soon as some item carries an
illegal field name, whatever the accumulated message is. -/
theorem foldl_set_identity_rejects (items : List (String × String))
    (m : Trezor.IdentityTypeMsg)
    (h : ∃ nv ∈ items, nv.1 ∉ Trezor.identityTypeFieldNames) :
    ∃ badName, badName ∉ Trezor.identityTypeFieldNames ∧
      items.foldlM (fun acc nv => Trezor.setIdentityField acc nv.1 nv.2) m =
        .error (.protocolError badName) := by
  induction items generalizing m with
  | nil => simp at h
  | cons nv rest ih =>
    by_cases hmem : nv.1 ∈ Trezor.identityTypeFieldNames
    · have hrest : ∃ p ∈ rest, p.1 ∉ Trezor.identityTypeFieldNames := by
        rcases h with ⟨p, hp, hnp⟩
        rcases List.mem_cons.mp hp with rfl | hp'
        · exact absurd hmem hnp
        · exact ⟨p, hp', hnp⟩
      rcases ih ⟨m.fields ++ [(nv.1, nv.2)]⟩ hrest with ⟨bad, hbad, heq⟩
      refine ⟨bad, hbad, ?_⟩
      rw [List.foldlM_cons]
      simpa [Trezor.setIdentityField, hmem] using heq
    · refine ⟨nv.1, hmem, ?_⟩
      rw [List.foldlM_cons]
      have hset : Trezor.setIdentityField m nv.1 nv.2 =
          .error (.protocolError nv.1) := by
        simp [Trezor.setIdentityField, hmem]
      rw [hset]
      rfl

/-- Claim C7: when serializing an Identity into the outgoing message,
every item whose field name is not a legal field of the IdentityType
message makes the serialization fail with a ProtocolError naming an
illegal field; unknown field names are never silently ignored (no normal
message is produced). -/
theorem identity_proto_rejects_unknown_fields (items : List (String × String))
    (h : ∃ nv ∈ items, nv.1 ∉ Trezor.identityTypeFieldNames) :
    (∃ badName, badName ∉ Trezor.identityTypeFieldNames ∧
      Trezor.identity_proto items = .error (.protocolError badName)) ∧
    (∀ m, Trezor.identity_proto items ≠ .ok m) := by
  rcases foldl_set_identity_rejects items ⟨[]⟩ h with ⟨bad, hbad, heq⟩
  have hmain : Trezor.identity_proto items = .error (.protocolError bad) := heq
  refine ⟨⟨bad, hbad, hmain⟩, fun m hc => ?_⟩
  rw [hmain] at hc
  exact Except.noConfusion hc

/-- Witness for C7: a concrete item list with the unknown field name
"bogus" next to the legal field name "user". -/
theorem identity_proto_rejects_unknown_fields_witness :
    (∃ nv ∈ [("user", "u"), ("bogus", "x")],
      nv.1 ∉ Trezor.identityTypeFieldNames) ∧
    ((∃ badName, badName ∉ Trezor.identityTypeFieldNames ∧
      Trezor.identity_proto [("user", "u"), ("bogus", "x")] =
        .error (.protocolError badName)) ∧
    (∀ m, Trezor.identity_proto [("user", "u"), ("bogus", "x")] ≠ .ok m)) :=
  ⟨by decide,
    identity_proto_rejects_unknown_fields [("user", "u"), ("bogus", "x")]
      (by decide)⟩
